import Mathlib

/-!
Verification of the nof1.ai monitor / Bitget follow-trading system.

This file gives a shallow embedding of the programs core components and
proves (or refutes) the frozen claims about it:

- bitget_trader_ccxt.py   : order router (place_order, set_take_profit_stop_loss,
                            get_position, execute_trades)
- bitget_multi_mode_trader.py : multi-environment dispatcher
- follow_trade_manager.py : whitelist filtering and follow orchestration
- config_manager.py       : is_model_whitelisted
- trade_analyzer.py       : per-symbol change detection
- position_fetcher.py     : snapshot file handoff (rename_current_to_last)

Modelling conventions:
- Python floats are modelled as rationals (the claims are about exact
  comparisons and control flow, not rounding).
- Python values observed only through truthiness, comparison with the
  placeholder string "N/A" and float(...) conversion are modelled by the
  quotient type PVal below.
- An exchange call that raises is modelled by the call returning none;
  the source catches these exceptions at exactly the places modelled.
- Every exchange interaction is recorded in an explicit call log so that
  claims about submission-call counts are statable.
-/

/-- Membership of a single character in a string, modelling the Python
substring test (c in s) for the one-character literals the router uses. -/
def pyIn (c : Char) (s : String) : Bool := s.data.contains c

/-- Python str.upper for the ASCII symbol names handled here. -/
def strUpper (s : String) : String := String.mk (s.data.map Char.toUpper)

/-- PVal models a Python value as observed by the router and analyzer code:
the code only tests truthiness, compares with the string "N/A", and applies
float(...).  Constructors: pyNone is Python None; emptyStr is the empty
string; naStr is the string "N/A"; numStr q is a numeric string whose float
value is q (truthy even for "0"); pyNum q is a JSON number q (falsy iff 0). -/
inductive PVal where
  | pyNone : PVal
  | emptyStr : PVal
  | naStr : PVal
  | numStr : ℚ → PVal
  | pyNum : ℚ → PVal
deriving DecidableEq, Repr

/-- Python truthiness of a PVal: None and the empty string are falsy, a
nonempty string is truthy, a number is truthy iff nonzero. -/
def PVal.truthy : PVal → Bool
  | .pyNone => false
  | .emptyStr => false
  | .naStr => true
  | .numStr _ => true
  | .pyNum q => q != 0

/-- Whether the value is the placeholder string "N/A" (the comparison
tp == "N/A" in the source; a number never equals a string in Python). -/
def PVal.isNA : PVal → Bool
  | .naStr => true
  | _ => false

/-- float(v): defined for numbers and numeric strings; float(None),
float(""), float("N/A") raise, modelled as none. -/
def PVal.toFloat? : PVal → Option ℚ
  | .numStr q => some q
  | .pyNum q => some q
  | _ => none

/-- One entry of the trades list consumed by BitgetTraderCCXT.execute_trades
(bitget_trader_ccxt.py lines 317-486): symbol, free-text action label,
quantity, direction, and the optional take-profit / stop-loss fields
(trade.get with default None, hence PVal). -/
structure Trade where
  symbol : String
  action : String
  quantity : ℚ
  direction : String
  profit_target : PVal
  stop_loss : PVal
deriving DecidableEq, Repr

/-- Order request assembled by the trader and handed to
exchange.create_order: symbol, side, order type, amount, optional limit
price, and the params dict fields the source sets (reduceOnly, holdSide,
triggerPrice, triggerType). -/
structure OrderReq where
  symbol : String
  side : String
  otype : String
  amount : ℚ
  price : Option ℚ
  reduceOnly : Bool
  holdSide : Option String
  triggerPrice : Option ℚ
  triggerType : Option String
deriving DecidableEq, Repr

/-- One observable exchange interaction: an order-submission call
(exchange.create_order) or a position query (exchange.fetch_positions). -/
inductive ExCall where
  | createOrder : OrderReq → ExCall
  | fetchPositions : String → ExCall
deriving DecidableEq, Repr

/-- One position row returned by exchange.fetch_positions: the held side
and the contract count. -/
structure PosInfo where
  side : String
  contracts : ℚ
deriving DecidableEq, Repr

/-- The exchange behaviour the trader runs against.  createOrder returns
some orderId on success and none when the call raises; fetchPositions
returns some rows on success and none when the call raises. -/
structure Exchange where
  createOrder : OrderReq → Option Nat
  fetchPositions : String → Option (List PosInfo)

/-- Hold-side inference of place_order (bitget_trader_ccxt.py lines
134-146): for reduce-only orders the hold side is the side being closed,
otherwise the side being opened; an unknown side string sets no hold side. -/
def computeHoldSide (reduceOnly : Bool) (side : String) : Option String :=
  if reduceOnly then
    if side == "sell" then some "long"
    else if side == "buy" then some "short"
    else none
  else
    if side == "buy" then some "long"
    else if side == "sell" then some "short"
    else none

/-- BitgetTraderCCXT.place_order (lines 109-180): builds the request (hold
side filled in unless preset), submits it, returns the order id or none when
create_order raises (the exception is caught and logged).  Also returns the
submission-call log. -/
def place_order (ex : Exchange) (symbol side otype : String) (amount : ℚ)
    (price : Option ℚ) (reduceOnly : Bool) (holdSidePre : Option String) :
    Option Nat × List ExCall :=
  let holdSide :=
    match holdSidePre with
    | some h => some h
    | none => computeHoldSide reduceOnly side
  let req : OrderReq :=
    if otype == "market" then
      ⟨symbol, side, "market", amount, none, reduceOnly, holdSide, none, none⟩
    else
      ⟨symbol, side, "limit", amount, price, reduceOnly, holdSide, none, none⟩
  (ex.createOrder req, [ExCall.createOrder req])

/-- BitgetTraderCCXT.get_position (lines 182-199): fetch positions for the
symbol and keep those with positive contract count; on exception return the
empty list.  The call log records the query. -/
def get_position (ex : Exchange) (symbol : String) : List PosInfo × List ExCall :=
  match ex.fetchPositions symbol with
  | some rows => (rows.filter (fun p => 0 < p.contracts), [ExCall.fetchPositions symbol])
  | none => ([], [ExCall.fetchPositions symbol])

/-- The trigger-order request built inside set_take_profit_stop_loss
(create_order with triggerPrice, triggerType fill_price, reduceOnly true). -/
def triggerReq (symbol side : String) (amount p : ℚ) : OrderReq :=
  ⟨symbol, side, "market", amount, none, true, none, some p, some "fill_price"⟩

/-- BitgetTraderCCXT.set_take_profit_stop_loss (lines 201-263): submit a
take-profit trigger order when the take-profit price is truthy, then a
stop-loss trigger order when the stop-loss price is truthy; each create_order
exception is caught, leaving the corresponding result slot empty.  Returns
(take_profit order, stop_loss order) and the call log in submission order. -/
def set_take_profit_stop_loss (ex : Exchange) (symbol side : String) (amount : ℚ)
    (take_profit_price stop_loss_price : Option ℚ) :
    (Option Nat × Option Nat) × List ExCall :=
  let tpStep : Option Nat × List ExCall :=
    match take_profit_price with
    | some p =>
        if p ≠ 0 then
          (ex.createOrder (triggerReq symbol side amount p),
           [ExCall.createOrder (triggerReq symbol side amount p)])
        else (none, [])
    | none => (none, [])
  let slStep : Option Nat × List ExCall :=
    match stop_loss_price with
    | some p =>
        if p ≠ 0 then
          (ex.createOrder (triggerReq symbol side amount p),
           [ExCall.createOrder (triggerReq symbol side amount p)])
        else (none, [])
    | none => (none, [])
  ((tpStep.1, slStep.1), tpStep.2 ++ slStep.2)

/-- The CCXT symbol built from the trade (line 347):
symbol_base.upper() + "/USDT:USDT". -/
def tradeSymbol (t : Trade) : String := strUpper t.symbol ++ "/USDT:USDT"

/-- The is_long flag of the loop body (line 386):
direction == long or the action label mentions the long character. -/
def isLongTrade (t : Trade) : Bool := t.direction == "long" || pyIn '多' t.action

/-- The open_side of the open path (line 407) and of the add path (line 450). -/
def openSideStr (t : Trade) : String := if isLongTrade t then "buy" else "sell"

/-- The close_side of the close path (line 392), the protective orders
(line 429) and the reduce path (line 459): sell reduces or closes a long,
buy reduces or closes a short. -/
def closeSideStr (t : Trade) : String := if isLongTrade t then "sell" else "buy"

/-- The market order request the close path hands to create_order: the side
opposite to the held direction, the scaled quantity, reduce-only, with the
hold side inferred by place_order. -/
def closeOrderReq (t : Trade) (scale : ℚ) : OrderReq :=
  ⟨tradeSymbol t, closeSideStr t, "market", t.quantity * scale, none, true,
   computeHoldSide true (closeSideStr t), none, none⟩

/-- The market entry order request of the open path. -/
def openEntryReq (t : Trade) (scale : ℚ) : OrderReq :=
  ⟨tradeSymbol t, openSideStr t, "market", t.quantity * scale, none, false,
   computeHoldSide false (openSideStr t), none, none⟩

/-- The stop-loss trigger order request of the open path, for stop-loss
price slp. -/
def slTriggerReq (t : Trade) (scale slp : ℚ) : OrderReq :=
  triggerReq (tradeSymbol t) (closeSideStr t) (t.quantity * scale) slp

/-- The close path of the loop body (lines 390-403): a reduce-only market
order on the side opposite to the held direction, sized by the scaled
quantity; success iff place_order returned an order. -/
def closeBranch (ex : Exchange) (scale : ℚ) (t : Trade) : Nat × Nat × List ExCall :=
  let r := place_order ex (tradeSymbol t) (closeSideStr t) "market" (t.quantity * scale)
    none true none
  if r.1.isSome then (1, 0, r.2) else (0, 1, r.2)

/-- The risk-gate test of the open path (line 410): the trade is rejected
when take profit or stop loss is falsy or the "N/A" placeholder. -/
def riskGateFails (t : Trade) : Bool :=
  !t.profit_target.truthy || t.profit_target.isNA
    || !t.stop_loss.truthy || t.stop_loss.isNA

/-- The tp_price / sl_price conversion at lines 426-427:
float(v) if v and v != "N/A" else None, where a failing float conversion
raises (outer none). -/
def protectPrice (v : PVal) : Option (Option ℚ) :=
  if v.truthy && !v.isNA then v.toFloat?.map some else some none

/-- The open path of the loop body (lines 405-444): risk gate, then the
market entry order, then set_take_profit_stop_loss on the opposite side with
the converted prices; success iff the stop-loss slot of the result is
filled, and any raising conversion falls into the per-trade except branch. -/
def openBranch (ex : Exchange) (scale : ℚ) (t : Trade) : Nat × Nat × List ExCall :=
  if riskGateFails t then
    (0, 1, [])
  else
    let entry := place_order ex (tradeSymbol t) (openSideStr t) "market" (t.quantity * scale)
      none false none
    match entry.1 with
    | none => (0, 1, entry.2)
    | some _ =>
      match protectPrice t.profit_target, protectPrice t.stop_loss with
      | some tpPrice, some slPrice =>
        let r := set_take_profit_stop_loss ex (tradeSymbol t) (closeSideStr t)
          (t.quantity * scale) tpPrice slPrice
        if r.1.2.isSome then (1, 0, entry.2 ++ r.2) else (0, 1, entry.2 ++ r.2)
      | _, _ => (0, 1, entry.2)

/-- The add / reduce path of the loop body (lines 446-471): a market order
in the held direction for an add, a reduce-only market order opposite to the
held direction for a reduce. -/
def addReduceBranch (ex : Exchange) (scale : ℚ) (t : Trade) : Nat × Nat × List ExCall :=
  let r :=
    if pyIn '加' t.action then
      place_order ex (tradeSymbol t) (openSideStr t)
        "market" (t.quantity * scale) none false none
    else
      place_order ex (tradeSymbol t) (closeSideStr t)
        "market" (t.quantity * scale) none true none
  if r.1.isSome then (1, 0, r.2) else (0, 1, r.2)

/-- Loop body of BitgetTraderCCXT.execute_trades (lines 337-481), processing
a single trade and returning (success increment, failed increment, exchange
call log): skip zero or negative quantities as success, skip sub-threshold
scaled quantities as success, skip everything in dry-run as success, then
dispatch on the action label with close taking precedence over open, over
add / reduce, and an unrecognized label counted as failure.  The per-trade
try/except of the source corresponds to the error branches of the helper
definitions above. -/
def execute_one_trade (ex : Exchange) (scale : ℚ) (t : Trade) (dry : Bool) :
    Nat × Nat × List ExCall :=
  if t.quantity ≤ 0 ∨ t.quantity * scale ≤ 0 then
    (1, 0, [])
  else if t.quantity * scale < 1 / 10000 then
    (1, 0, [])
  else if dry then
    (1, 0, [])
  else if pyIn '平' t.action then
    closeBranch ex scale t
  else if pyIn '开' t.action then
    openBranch ex scale t
  else if pyIn '加' t.action || pyIn '减' t.action then
    addReduceBranch ex scale t
  else
    (0, 1, [])

/-- BitgetTraderCCXT.execute_trades (lines 317-486): process every trade of
the list, accumulating the success and failed counters and the exchange call
log; no trade aborts the processing of the remainder. -/
def execute_trades (ex : Exchange) (scale : ℚ) (trades : List Trade) (dry : Bool) :
    Nat × Nat × List ExCall :=
  match trades with
  | [] => (0, 0, [])
  | t :: ts =>
    let r := execute_one_trade ex scale t dry
    let rest := execute_trades ex scale ts dry
    (r.1 + rest.1, r.2.1 + rest.2.1, r.2.2 ++ rest.2.2)

/-- Per-environment execution outcome, the success and failed counters
returned by an environment trader. -/
structure ExecResult where
  success : Nat
  failed : Nat
deriving DecidableEq, Repr

/-- Behaviour of one environment trader as seen by the multi-mode
dispatcher: given the trade list and the dry-run flag it either returns an
ExecResult or raises (Except.error), exactly the Python call semantics of
self.demo_trader.execute_trades / self.live_trader.execute_trades. -/
def EnvTrader : Type := List Trade → Bool → Except String ExecResult

/-- Result dictionary of BitgetMultiModeTrader.execute_trades (lines
170-175): the mode, the optional per-environment results, and the summed
totals. -/
structure MultiResult where
  mode : Nat
  demo : Option ExecResult
  live : Option ExecResult
  total_success : Nat
  total_failed : Nat
deriving DecidableEq, Repr

/-- BitgetMultiModeTrader.execute_trades (bitget_multi_mode_trader.py lines
129-175).  The demo environment runs when a demo trader exists and the mode
is MODE_DEMO_ONLY (0) or MODE_BOTH (2); the live environment runs when a
live trader exists and the mode is MODE_LIVE_ONLY (1) or MODE_BOTH (2).
The source wraps neither call in try/except, so an exception from one
environment propagates out of the dispatcher; totals sum the counters of
the results that were produced. -/
def multi_execute_trades (mode : Nat) (demoTrader liveTrader : Option EnvTrader)
    (trades : List Trade) (dry : Bool) : Except String MultiResult :=
  let demoStep : Except String (Option ExecResult) :=
    match demoTrader with
    | some d =>
        if mode == 0 || mode == 2 then
          match d trades dry with
          | .ok r => .ok (some r)
          | .error e => .error e
        else .ok none
    | none => .ok none
  match demoStep with
  | .error e => .error e
  | .ok demoRes =>
    let liveStep : Except String (Option ExecResult) :=
      match liveTrader with
      | some l =>
          if mode == 1 || mode == 2 then
            match l trades dry with
            | .ok r => .ok (some r)
            | .error e => .error e
          else .ok none
      | none => .ok none
    match liveStep with
    | .error e => .error e
    | .ok liveRes =>
      let totalS := (match demoRes with | some r => r.success | none => 0)
        + (match liveRes with | some r => r.success | none => 0)
      let totalF := (match demoRes with | some r => r.failed | none => 0)
        + (match liveRes with | some r => r.failed | none => 0)
      .ok ⟨mode, demoRes, liveRes, totalS, totalF⟩

/-- One entry of the analyzer-produced trade list as seen by the follow
manager, which reads only the model id (whitelist check) and the free-text
message (logging). -/
structure FollowTrade where
  model_id : String
  message : String
deriving DecidableEq, Repr

/-- ConfigManager.is_model_whitelisted (config_manager.py lines 205-221):
an empty whitelist follows all models, otherwise membership decides. -/
def is_model_whitelisted (whitelist : List String) (model_id : String) : Bool :=
  if whitelist.isEmpty then true else whitelist.contains model_id

/-- FollowTradeManager._filter_whitelist_trades (follow_trade_manager.py
lines 232-259): keep, in order, the trades whose model id passes
is_model_whitelisted. -/
def filter_whitelist_trades (whitelist : List String) :
    List FollowTrade → List FollowTrade
  | [] => []
  | t :: ts =>
      if is_model_whitelisted whitelist t.model_id then
        t :: filter_whitelist_trades whitelist ts
      else
        filter_whitelist_trades whitelist ts

/-- Follow configuration fields read by execute_follow_trades: enabled,
dry_run, whitelist_models, scale_ratio (config_manager.py defaults merged). -/
structure FollowConfig where
  enabled : Bool
  dryRun : Bool
  whitelist_models : List String
  scale : ℚ
deriving DecidableEq, Repr

/-- Registered platform entry: name and enabled flag (the platforms dict of
FollowTradeManager). -/
structure Platform where
  name : String
  enabled : Bool
deriving DecidableEq, Repr

/-- FollowTradeManager.execute_follow_trades (follow_trade_manager.py lines
124-230), with the notification side effects elided: skip everything when no
platform is enabled, when auto-follow is disabled, or when the whitelist
filter leaves nothing; otherwise for each enabled platform either report
all-success without invoking the executor (dry run, lines 206-210) or invoke
the platform executor on the filtered list with the freshly-read scale
(lines 201-213).  Each platform executor is modelled as a function of the
scale and the trade list it receives. -/
def execute_follow_trades (cfg : FollowConfig)
    (platforms : List (Platform × (ℚ → List FollowTrade → ExecResult)))
    (trades : List FollowTrade) : List (String × ExecResult) :=
  let enabledPlatforms := platforms.filter (fun p => p.1.enabled)
  if enabledPlatforms.isEmpty then []
  else if !cfg.enabled then []
  else
    let filtered := filter_whitelist_trades cfg.whitelist_models trades
    if filtered.isEmpty then []
    else
      enabledPlatforms.map (fun p =>
        (p.1.name,
         if cfg.dryRun then ⟨filtered.length, 0⟩
         else p.2 cfg.scale filtered))

/-- Position record consumed by the analyzer (trade_analyzer.py lines
216-222 and 148-163): signed quantity, leverage, prices, and the exit plan
with optional profit_target / stop_loss entries (exit_plan.get defaults to
the placeholder "N/A" when the key is missing, hence Option PVal). -/
structure PosRec where
  quantity : ℚ
  leverage : ℚ
  entry_price : ℚ
  current_price : ℚ
  exit_plan_tp : Option PVal
  exit_plan_sl : Option PVal
deriving DecidableEq, Repr

/-- Fields of a position_opened event dict (trade_analyzer.py lines
164-177); the nondeterministic timestamp and the formatted message are
elided. -/
structure OpenedEvt where
  model_id : String
  symbol : String
  action : String
  quantity : ℚ
  leverage : ℚ
  entry_price : ℚ
  current_price : ℚ
  tp : PVal
  sl : PVal
deriving DecidableEq, Repr

/-- Fields of a position_closed event dict (lines 196-209). -/
structure ClosedEvt where
  model_id : String
  symbol : String
  last_quantity : ℚ
  last_leverage : ℚ
  last_entry_price : ℚ
  last_current_price : ℚ
  direction : String
  tp : PVal
  sl : PVal
deriving DecidableEq, Repr

/-- Fields of a position_changed event dict (lines 251-271). -/
structure ChangedEvt where
  model_id : String
  symbol : String
  action : String
  quantity_change : ℚ
  last_quantity : ℚ
  current_quantity : ℚ
  last_leverage : ℚ
  current_leverage : ℚ
  last_entry_price : ℚ
  current_entry_price : ℚ
  current_price : ℚ
  tp : PVal
  sl : PVal
deriving DecidableEq, Repr

/-- A detection event, tagged by its type field. -/
inductive TradeEvt where
  | opened : OpenedEvt → TradeEvt
  | closed : ClosedEvt → TradeEvt
  | changed : ChangedEvt → TradeEvt
deriving DecidableEq, Repr

/-- The action label of an event: the action field for opened and changed
events; a closed event dict carries its direction label instead. -/
def TradeEvt.actionName : TradeEvt → String
  | .opened e => e.action
  | .closed e => e.direction
  | .changed e => e.action

/-- TradeAnalyzer._analyze_symbol_changes (trade_analyzer.py lines 130-277):
diff one symbol of one model between the two snapshots.  A missing position
is modelled as none.  New position: emit position_opened with the direction
from the quantity sign and tp/sl from the exit plan (default "N/A").
Vanished position: emit position_closed.  Present in both: emit one
position_changed event iff quantity or leverage changed, with the action
label chosen by the sign of the quantity change and the sign of the current
quantity, and quantity_change the absolute change. -/
def analyze_symbol_changes (model_id symbol : String)
    (last_pos current_pos : Option PosRec) : List TradeEvt :=
  match last_pos, current_pos with
  | none, some cur =>
      let direction := if 0 < cur.quantity then "买多" else "卖空"
      [.opened ⟨model_id, symbol, direction, |cur.quantity|, cur.leverage,
        cur.entry_price, cur.current_price,
        cur.exit_plan_tp.getD .naStr, cur.exit_plan_sl.getD .naStr⟩]
  | some lastp, none =>
      let direction := if 0 < lastp.quantity then "买多" else "卖空"
      [.closed ⟨model_id, symbol, lastp.quantity, lastp.leverage,
        lastp.entry_price, lastp.current_price, direction,
        lastp.exit_plan_tp.getD .naStr, lastp.exit_plan_sl.getD .naStr⟩]
  | none, none => []
  | some lastp, some cur =>
      if lastp.quantity ≠ cur.quantity ∨ lastp.leverage ≠ cur.leverage then
        let qc := cur.quantity - lastp.quantity
        let action :=
          if 0 < qc then
            if 0 < cur.quantity then "加仓买多" else "加仓卖空"
          else if qc < 0 then
            if 0 < cur.quantity then "减仓买多" else "减仓卖空"
          else
            if 0 < cur.quantity then "调整买多杠杆" else "调整卖空杠杆"
        [.changed ⟨model_id, symbol, action, |qc|, lastp.quantity,
          cur.quantity, lastp.leverage, cur.leverage, lastp.entry_price,
          cur.entry_price, cur.current_price,
          cur.exit_plan_tp.getD .naStr, cur.exit_plan_sl.getD .naStr⟩]
      else []

/-- Snapshot file-system state at the persistence boundary: the optional
contents of current.json and of last.json. -/
structure SnapshotFS where
  currentJson : Option String
  lastJson : Option String
deriving DecidableEq, Repr

/-- PositionDataFetcher.rename_current_to_last (position_fetcher.py lines
315-336) as the sequence of file-system states an external reader can
observe: when current.json exists and last.json exists, first os.remove
deletes last.json, then os.rename moves current.json onto last.json; when
only current.json exists, the single rename runs; otherwise nothing
happens.  Returns the observable state trace (initial state included) and
the boolean result of the method. -/
def rename_current_to_last (fs : SnapshotFS) : List SnapshotFS × Bool :=
  match fs.currentJson with
  | some cur =>
      match fs.lastJson with
      | some _ =>
          ([fs, ⟨some cur, none⟩, ⟨none, some cur⟩], true)
      | none =>
          ([fs, ⟨none, some cur⟩], true)
  | none => ([fs], false)

/-- An exchange on which every create_order call raises and every position
query reports a flat book. -/
def exRejectAll : Exchange := ⟨fun _ => none, fun _ => some []⟩

/-- An exchange on which every create_order call succeeds. -/
def exAcceptAll : Exchange := ⟨fun _ => some 1, fun _ => some []⟩

/-- An exchange that accepts plain market orders but rejects every trigger
(protective) order. -/
def exEntryOnly : Exchange :=
  ⟨fun r => if r.triggerPrice.isSome then none else some 1, fun _ => some []⟩

/-- A close trade (action label mentions the close character) with recorded
quantity delta 2 and no protective prices. -/
def tCloseC2 : Trade := ⟨"BTC", "平多", 2, "long", PVal.pyNone, PVal.pyNone⟩

/-- An opening trade whose take profit and stop loss are both missing. -/
def tOpenNoProtC1 : Trade := ⟨"BTC", "开多", 1, "long", PVal.pyNone, PVal.pyNone⟩

/-- A reduce trade whose scaled quantity falls below the minimum threshold
at scale 1/100. -/
def tTinyC4 : Trade := ⟨"BTC", "减多", 1/1000, "long", PVal.pyNone, PVal.pyNone⟩

/-- An opening trade carrying numeric-string protective prices. -/
def tOpenC8 : Trade := ⟨"BTC", "开多", 1, "long", PVal.numStr 110000, PVal.numStr 100000⟩

/-- The analyzer inputs of the short-reduction example: previous quantity
-10, current quantity -4, leverage unchanged. -/
def prevPosC3 : PosRec := ⟨-10, 1, 0, 0, none, none⟩

/-- Current snapshot record of the short-reduction example. -/
def curPosC3 : PosRec := ⟨-4, 1, 0, 0, none, none⟩

/-- An environment trader whose batch execution raises. -/
def demoFailEnv : EnvTrader := fun _ _ => .error "demo down"

/-- An environment trader that reports one success. -/
def liveOkEnv : EnvTrader := fun _ _ => .ok ⟨1, 0⟩

/-- An environment trader that reports three successes and one failure. -/
def demoOkEnv : EnvTrader := fun _ _ => .ok ⟨3, 1⟩

/-- A sample trade list entry for the dispatcher examples. -/
def tradeC7 : Trade := ⟨"BTC", "加多", 1, "long", PVal.pyNone, PVal.pyNone⟩

/-- Follow-manager trades for the whitelist example. -/
def taC6 : FollowTrade := ⟨"modelA", "trade of modelA"⟩

/-- A follow trade of a model outside the whitelist. -/
def tbC6 : FollowTrade := ⟨"modelB", "trade of modelB"⟩

lemma closeBranch_counts (ex : Exchange) (scale : ℚ) (t : Trade) :
    (closeBranch ex scale t).1 + (closeBranch ex scale t).2.1 = 1 := by
  unfold closeBranch place_order
  dsimp only
  repeat' split <;> try rfl

lemma openBranch_counts (ex : Exchange) (scale : ℚ) (t : Trade) :
    (openBranch ex scale t).1 + (openBranch ex scale t).2.1 = 1 := by
  unfold openBranch place_order
  dsimp only
  repeat' split <;> try rfl

lemma addReduceBranch_counts (ex : Exchange) (scale : ℚ) (t : Trade) :
    (addReduceBranch ex scale t).1 + (addReduceBranch ex scale t).2.1 = 1 := by
  unfold addReduceBranch place_order
  dsimp only
  repeat' split <;> try rfl

lemma execute_one_trade_counts (ex : Exchange) (scale : ℚ) (t : Trade) (dry : Bool) :
    (execute_one_trade ex scale t dry).1 + (execute_one_trade ex scale t dry).2.1 = 1 := by
  unfold execute_one_trade
  repeat' split
  any_goals rfl
  · exact closeBranch_counts ex scale t
  · exact openBranch_counts ex scale t
  · exact addReduceBranch_counts ex scale t

lemma execute_one_trade_dry (ex : Exchange) (scale : ℚ) (t : Trade) :
    execute_one_trade ex scale t true = (1, 0, []) := by
  unfold execute_one_trade
  by_cases h1 : t.quantity ≤ 0 ∨ t.quantity * scale ≤ 0
  · rw [if_pos h1]
  · rw [if_neg h1]
    by_cases h2 : t.quantity * scale < 1 / 10000
    · rw [if_pos h2]
    · rw [if_neg h2, if_pos rfl]

lemma execute_trades_cons (ex : Exchange) (scale : ℚ) (t : Trade) (ts : List Trade) (dry : Bool) :
    execute_trades ex scale (t :: ts) dry =
      ((execute_one_trade ex scale t dry).1 + (execute_trades ex scale ts dry).1,
       (execute_one_trade ex scale t dry).2.1 + (execute_trades ex scale ts dry).2.1,
       (execute_one_trade ex scale t dry).2.2 ++ (execute_trades ex scale ts dry).2.2) := rfl

lemma execute_trades_total (ex : Exchange) (scale : ℚ) (ts : List Trade) (dry : Bool) :
    (execute_trades ex scale ts dry).1 + (execute_trades ex scale ts dry).2.1 = ts.length := by
  induction ts with
  | nil => rfl
  | cons t ts ih =>
      rw [execute_trades_cons]
      dsimp only
      rw [List.length_cons, ← ih]
      have h := execute_one_trade_counts ex scale t dry
      omega

lemma execute_trades_dry (ex : Exchange) (scale : ℚ) (ts : List Trade) :
    execute_trades ex scale ts true = (ts.length, 0, []) := by
  induction ts with
  | nil => rfl
  | cons t ts ih =>
      rw [execute_trades_cons, execute_one_trade_dry, ih]
      simp [Nat.add_comm]

lemma place_order_market (ex : Exchange) (sym side : String) (amt : ℚ)
    (p : Option ℚ) (ro : Bool) :
    place_order ex sym side "market" amt p ro none =
      (ex.createOrder ⟨sym, side, "market", amt, none, ro, computeHoldSide ro side, none, none⟩,
       [ExCall.createOrder ⟨sym, side, "market", amt, none, ro, computeHoldSide ro side, none, none⟩]) := rfl

lemma closeBranch_eq (ex : Exchange) (scale : ℚ) (t : Trade) :
    closeBranch ex scale t =
      if (ex.createOrder (closeOrderReq t scale)).isSome
        then (1, 0, [ExCall.createOrder (closeOrderReq t scale)])
        else (0, 1, [ExCall.createOrder (closeOrderReq t scale)]) := rfl

lemma pass_checks (scale : ℚ) (t : Trade) (hscale : 0 < scale)
    (hthr : 1 / 10000 ≤ t.quantity * scale) :
    ¬(t.quantity ≤ 0 ∨ t.quantity * scale ≤ 0) ∧ ¬(t.quantity * scale < 1 / 10000) := by
  have hpos : 0 < t.quantity * scale := lt_of_lt_of_le (by norm_num) hthr
  constructor
  · rintro (h | h)
    · nlinarith
    · nlinarith
  · exact not_lt.mpr hthr

lemma execute_one_trade_live (ex : Exchange) (scale : ℚ) (t : Trade)
    (hscale : 0 < scale) (hthr : 1 / 10000 ≤ t.quantity * scale) :
    execute_one_trade ex scale t false =
      (if pyIn '平' t.action then closeBranch ex scale t
       else if pyIn '开' t.action then openBranch ex scale t
       else if pyIn '加' t.action || pyIn '减' t.action then addReduceBranch ex scale t
       else (0, 1, [])) := by
  obtain ⟨h1, h2⟩ := pass_checks scale t hscale hthr
  unfold execute_one_trade
  rw [if_neg h1, if_neg h2, if_neg (by simp : ¬((false : Bool) = true))]

lemma openBranch_eq (ex : Exchange) (scale : ℚ) (t : Trade)
    (hgate : riskGateFails t = false) :
    openBranch ex scale t =
      match ex.createOrder (openEntryReq t scale) with
      | none => (0, 1, [ExCall.createOrder (openEntryReq t scale)])
      | some _ =>
        match protectPrice t.profit_target, protectPrice t.stop_loss with
        | some tpPrice, some slPrice =>
          let r := set_take_profit_stop_loss ex (tradeSymbol t) (closeSideStr t)
            (t.quantity * scale) tpPrice slPrice
          if r.1.2.isSome then (1, 0, ExCall.createOrder (openEntryReq t scale) :: r.2)
          else (0, 1, ExCall.createOrder (openEntryReq t scale) :: r.2)
        | _, _ => (0, 1, [ExCall.createOrder (openEntryReq t scale)]) := by
  unfold openBranch
  rw [hgate]
  simp only [Bool.false_eq_true, if_false]
  rfl

lemma filter_whitelist_eq (wl : List String) (ts : List FollowTrade) :
    filter_whitelist_trades wl ts = ts.filter (fun u => is_model_whitelisted wl u.model_id) := by
  induction ts with
  | nil => rfl
  | cons t ts ih =>
      unfold filter_whitelist_trades
      rw [List.filter_cons]
      split <;> simp_all

/-- Claim C1: outside dry-run mode, an opening trade (action mentions the
open character and not the close character) whose scaled quantity is at or
above the minimum threshold is counted as failed and produces zero exchange
submission calls whenever its take profit or stop loss is missing (falsy)
or the "N/A" placeholder. -/
theorem c1_open_without_protection_rejected (ex : Exchange) (scale : ℚ) (t : Trade)
    (hscale : 0 < scale) (hthr : 1 / 10000 ≤ t.quantity * scale)
    (hopen : pyIn '开' t.action = true) (hnclose : pyIn '平' t.action = false)
    (hbad : t.profit_target.truthy = false ∨ t.profit_target.isNA = true
      ∨ t.stop_loss.truthy = false ∨ t.stop_loss.isNA = true) :
    execute_one_trade ex scale t false = (0, 1, []) := by
  have hgate : riskGateFails t = true := by
    unfold riskGateFails
    rcases hbad with h | h | h | h <;> simp [h]
  rw [execute_one_trade_live ex scale t hscale hthr, hnclose, hopen]
  simp only [Bool.false_eq_true, if_false, if_true]
  unfold openBranch
  rw [hgate]
  simp

/-- Witness for claim C1: a concrete opening trade with both protective
prices missing is counted failed with an empty call log. -/
theorem c1_open_without_protection_rejected_witness :
    (0 : ℚ) < 1 ∧ pyIn '开' tOpenNoProtC1.action = true
    ∧ tOpenNoProtC1.profit_target.truthy = false
    ∧ execute_one_trade exRejectAll 1 tOpenNoProtC1 false = (0, 1, []) :=
  ⟨by norm_num, by decide, by decide,
   c1_open_without_protection_rejected exRejectAll 1 tOpenNoProtC1 (by norm_num)
     (by show (1 : ℚ) / 10000 ≤ 1 * 1; norm_num) (by decide) (by decide)
     (Or.inl (by decide))⟩

/-- Claim C2 counterexample: on a concrete close trade with recorded delta 2
against an exchange whose position book is flat, the router submits one
reduce-only order sized by the scaled recorded delta (amount 2), performs no
position query (the full call log is that single create_order call), and
counts the trade as failed.  This refutes the claim that the closing
quantity is taken from a live position query and that a flat position is
treated as an idempotent successful no-op. -/
theorem c2_close_ignores_live_position_cex :
    execute_one_trade exRejectAll 1 tCloseC2 false
      = (0, 1, [ExCall.createOrder (closeOrderReq tCloseC2 1)])
    ∧ (closeOrderReq tCloseC2 1).amount = 2
    ∧ exRejectAll.fetchPositions (tradeSymbol tCloseC2) = some []
    ∧ (∀ s, ExCall.fetchPositions s ∉ (execute_one_trade exRejectAll 1 tCloseC2 false).2.2) := by
  refine ⟨?_, by norm_num [closeOrderReq, tCloseC2], rfl, ?_⟩
  · show execute_one_trade exRejectAll 1 tCloseC2 false
      = (0, 1, [ExCall.createOrder (closeOrderReq tCloseC2 1)])
    unfold execute_one_trade
    rw [if_neg (by norm_num [tCloseC2]), if_neg (by norm_num [tCloseC2]),
      if_neg (by simp : ¬((false : Bool) = true)),
      if_pos (by decide : pyIn '平' tCloseC2.action = true)]
    rw [closeBranch_eq]
    rfl
  · intro s
    unfold execute_one_trade
    rw [if_neg (by norm_num [tCloseC2]), if_neg (by norm_num [tCloseC2]),
      if_neg (by simp : ¬((false : Bool) = true)),
      if_pos (by decide : pyIn '平' tCloseC2.action = true)]
    have hnone : (exRejectAll.createOrder (closeOrderReq tCloseC2 1)).isSome = false := rfl
    rw [closeBranch_eq, hnone]
    simp

/-- Claim C2 amended: outside dry-run mode, a close trade above the minimum
threshold submits exactly one order, namely a reduce-only market order whose
amount is the recorded quantity delta times the scale; no live position
query is made, and the trade counts as success iff the exchange accepts that
order. -/
theorem c2_close_submits_scaled_reduce_only (ex : Exchange) (scale : ℚ) (t : Trade)
    (hscale : 0 < scale) (hthr : 1 / 10000 ≤ t.quantity * scale)
    (hclose : pyIn '平' t.action = true) :
    execute_one_trade ex scale t false =
      (if (ex.createOrder (closeOrderReq t scale)).isSome
        then (1, 0, [ExCall.createOrder (closeOrderReq t scale)])
        else (0, 1, [ExCall.createOrder (closeOrderReq t scale)]))
    ∧ (closeOrderReq t scale).amount = t.quantity * scale
    ∧ (closeOrderReq t scale).reduceOnly = true
    ∧ (∀ s, ExCall.fetchPositions s ∉ (execute_one_trade ex scale t false).2.2) := by
  have hmain : execute_one_trade ex scale t false =
      (if (ex.createOrder (closeOrderReq t scale)).isSome
        then (1, 0, [ExCall.createOrder (closeOrderReq t scale)])
        else (0, 1, [ExCall.createOrder (closeOrderReq t scale)])) := by
    rw [execute_one_trade_live ex scale t hscale hthr, hclose]
    simp only [if_true]
    exact closeBranch_eq ex scale t
  refine ⟨hmain, rfl, rfl, ?_⟩
  intro s
  rw [hmain]
  split <;> simp

/-- Witness for the amended claim C2 at a concrete close trade. -/
theorem c2_close_submits_scaled_reduce_only_witness :
    (0 : ℚ) < 1 ∧ pyIn '平' tCloseC2.action = true
    ∧ (execute_one_trade exRejectAll 1 tCloseC2 false =
        (if (exRejectAll.createOrder (closeOrderReq tCloseC2 1)).isSome
          then (1, 0, [ExCall.createOrder (closeOrderReq tCloseC2 1)])
          else (0, 1, [ExCall.createOrder (closeOrderReq tCloseC2 1)]))
      ∧ (closeOrderReq tCloseC2 1).amount = tCloseC2.quantity * 1
      ∧ (closeOrderReq tCloseC2 1).reduceOnly = true
      ∧ (∀ s, ExCall.fetchPositions s ∉ (execute_one_trade exRejectAll 1 tCloseC2 false).2.2)) :=
  ⟨by norm_num, by decide,
   c2_close_submits_scaled_reduce_only exRejectAll 1 tCloseC2 (by norm_num)
     (by show (1 : ℚ) / 10000 ≤ 2 * 1; norm_num) (by decide)⟩

/-- Claim C3 counterexample: for previous quantity -10 and current quantity
-4 with unchanged leverage, the single emitted event does not carry the
reduce-on-short label: the code classifies by the sign of the numeric
quantity change, so the label is the add-on-short label instead of the
reduce-on-short label the claim requires. -/
theorem c3_short_reduction_not_reduce_cex :
    (analyze_symbol_changes "model" "BTC" (some prevPosC3) (some curPosC3)).map
      TradeEvt.actionName ≠ ["减仓卖空"] := by
  unfold analyze_symbol_changes prevPosC3 curPosC3
  norm_num
  decide

/-- Claim C3 amended: for previous quantity -10 and current quantity -4 with
unchanged leverage, detection emits exactly one position_changed intent with
quantity delta 6 and the short side encoded in the action label, but the
label is the add-on-short label (the code classifies by the sign of the
numeric quantity change, so a shrinking short counts as an add). -/
theorem c3_short_reduction_labeled_add_short :
    analyze_symbol_changes "model" "BTC" (some prevPosC3) (some curPosC3)
      = [TradeEvt.changed ⟨"model", "BTC", "加仓卖空", 6, -10, -4, 1, 1, 0, 0, 0,
          PVal.naStr, PVal.naStr⟩] := by
  unfold analyze_symbol_changes prevPosC3 curPosC3
  norm_num

/-- Claim C4: a trade whose scaled quantity is nonpositive or below the
minimum tradable threshold 1/10000 is counted as a success and produces zero
exchange submission calls, in any run mode. -/
theorem c4_subthreshold_counted_success (ex : Exchange) (scale : ℚ) (t : Trade)
    (dry : Bool)
    (h : t.quantity * scale ≤ 0 ∨ t.quantity * scale < 1 / 10000) :
    execute_one_trade ex scale t dry = (1, 0, []) := by
  unfold execute_one_trade
  by_cases h1 : t.quantity ≤ 0 ∨ t.quantity * scale ≤ 0
  · rw [if_pos h1]
  · rw [if_neg h1]
    have h2 : t.quantity * scale < 1 / 10000 := by
      rcases h with h | h
      · exact absurd (Or.inr h) h1
      · exact h
    rw [if_pos h2]

/-- Witness for claim C4: quantity 1/1000 at scale 1/100 scales to 1/100000,
below the 1/10000 threshold, and is counted success with no calls outside
dry-run mode. -/
theorem c4_subthreshold_counted_success_witness :
    ((1 : ℚ) / 1000 * (1 / 100) < 1 / 10000)
    ∧ execute_one_trade exAcceptAll (1 / 100) tTinyC4 false = (1, 0, []) :=
  ⟨by norm_num,
   c4_subthreshold_counted_success exAcceptAll (1 / 100) tTinyC4 false
     (Or.inr (by show (1 : ℚ) / 1000 * (1 / 100) < 1 / 10000; norm_num))⟩

/-- Claim C5: every trade of the batch contributes exactly one counter
increment, the batch processes the head and then the tail unconditionally
(no short-circuiting on a failed head), and the returned counters satisfy
success plus failed equals the length of the trade list. -/
theorem c5_counts_partition_no_abort (ex : Exchange) (scale : ℚ) (dry : Bool)
    (t : Trade) (ts : List Trade) :
    (execute_one_trade ex scale t dry).1 + (execute_one_trade ex scale t dry).2.1 = 1
    ∧ execute_trades ex scale (t :: ts) dry =
      ((execute_one_trade ex scale t dry).1 + (execute_trades ex scale ts dry).1,
       (execute_one_trade ex scale t dry).2.1 + (execute_trades ex scale ts dry).2.1,
       (execute_one_trade ex scale t dry).2.2 ++ (execute_trades ex scale ts dry).2.2)
    ∧ (execute_trades ex scale ts dry).1 + (execute_trades ex scale ts dry).2.1 = ts.length :=
  ⟨execute_one_trade_counts ex scale t dry, execute_trades_cons ex scale t ts dry,
   execute_trades_total ex scale ts dry⟩

/-- Claim C6: the whitelist filter keeps exactly the trades passing
is_model_whitelisted (everything when the whitelist is empty, membership
otherwise), a trade of a model outside a nonempty whitelist is dropped, and
every result the follow manager produces comes from applying a platform
executor to the filtered list only (or the dry-run count of that list), so a
dropped trade never reaches any platform executor. -/
theorem c6_whitelist_filter (wl : List String) (ts : List FollowTrade) (t : FollowTrade) :
    (wl = [] → filter_whitelist_trades wl ts = ts)
    ∧ filter_whitelist_trades wl ts = ts.filter (fun u => is_model_whitelisted wl u.model_id)
    ∧ (wl ≠ [] → wl.contains t.model_id = false → t ∉ filter_whitelist_trades wl ts)
    ∧ (∀ (cfg : FollowConfig) (platforms : List (Platform × (ℚ → List FollowTrade → ExecResult)))
        (x : String × ExecResult), x ∈ execute_follow_trades cfg platforms ts →
        ∃ p, p ∈ platforms ∧ p.1.enabled = true ∧
          x = (p.1.name,
            if cfg.dryRun then ⟨(filter_whitelist_trades cfg.whitelist_models ts).length, 0⟩
            else p.2 cfg.scale (filter_whitelist_trades cfg.whitelist_models ts))) := by
  refine ⟨?_, filter_whitelist_eq wl ts, ?_, ?_⟩
  · intro h
    subst h
    rw [filter_whitelist_eq]
    simp [is_model_whitelisted]
  · intro hne hcon hmem
    rw [filter_whitelist_eq] at hmem
    have := (List.mem_filter.mp hmem).2
    simp only [is_model_whitelisted] at this
    rw [if_neg (by simpa using hne), hcon] at this
    exact absurd this (by simp)
  · intro cfg platforms x hx
    unfold execute_follow_trades at hx
    by_cases h1 : (platforms.filter (fun p => p.1.enabled)).isEmpty
    · rw [if_pos h1] at hx; exact absurd hx (List.not_mem_nil x)
    · rw [if_neg h1] at hx
      by_cases h2 : !cfg.enabled
      · rw [if_pos h2] at hx; exact absurd hx (List.not_mem_nil x)
      · rw [if_neg h2] at hx
        by_cases h3 : (filter_whitelist_trades cfg.whitelist_models ts).isEmpty
        · rw [if_pos h3] at hx; exact absurd hx (List.not_mem_nil x)
        · rw [if_neg h3] at hx
          obtain ⟨p, hp, hpx⟩ := List.mem_map.mp hx
          have hpmem := List.mem_filter.mp hp
          exact ⟨p, hpmem.1, by simpa using hpmem.2, hpx.symm⟩

/-- Witness for claim C6: with whitelist modelA, the modelB trade is dropped
by the filter. -/
theorem c6_whitelist_filter_witness :
    (["modelA"] ≠ ([] : List String))
    ∧ (["modelA"].contains tbC6.model_id = false)
    ∧ tbC6 ∉ filter_whitelist_trades ["modelA"] [taC6, tbC6] :=
  ⟨by simp, by decide,
   (c6_whitelist_filter ["modelA"] [taC6, tbC6] tbC6).2.2.1 (by simp) (by decide)⟩

/-- Claim C7 counterexample: with a demo environment whose batch execution
raises and a live environment that would succeed, the multi-mode dispatcher
in both-environments mode propagates the demo exception and produces no
result at all, in particular no live result: the dispatcher has no
per-environment exception handling, so one environment failing fatally does
prevent the other environment result. -/
theorem c7_demo_exception_blocks_live_cex :
    multi_execute_trades 2 (some demoFailEnv) (some liveOkEnv) [tradeC7] false
      = Except.error "demo down" := rfl

/-- Claim C7 amended: the dispatcher runs demo then live sequentially with
no per-environment exception handling; when both environment executions
return normally, each environment entry of the result is exactly its own
executor output on the shared trade list (unaffected by the other
environment), and the returned totals are the sums of the per-environment
success and failed counts. -/
theorem c7_results_independent_totals_sum (d l : EnvTrader) (ts : List Trade)
    (dry : Bool) (rd rl : ExecResult)
    (hd : d ts dry = .ok rd) (hl : l ts dry = .ok rl) :
    multi_execute_trades 2 (some d) (some l) ts dry =
      .ok ⟨2, some rd, some rl, rd.success + rl.success, rd.failed + rl.failed⟩ := by
  unfold multi_execute_trades
  simp only [hd, hl]
  rfl

/-- Witness for the amended claim C7 with concrete environment results. -/
theorem c7_results_independent_totals_sum_witness :
    demoOkEnv [tradeC7] false = .ok ⟨3, 1⟩ ∧ liveOkEnv [tradeC7] false = .ok ⟨1, 0⟩
    ∧ multi_execute_trades 2 (some demoOkEnv) (some liveOkEnv) [tradeC7] false
      = .ok ⟨2, some ⟨3, 1⟩, some ⟨1, 0⟩, 4, 1⟩ :=
  ⟨rfl, rfl,
   c7_results_independent_totals_sum demoOkEnv liveOkEnv [tradeC7] false ⟨3, 1⟩ ⟨1, 0⟩ rfl rfl⟩

/-- Claim C8: outside dry-run mode, for an opening trade that passes the
risk gate, when the market entry order succeeds but the stop-loss trigger
order fails, the trade is counted as failed even though the entry order was
submitted (the entry call is in the call log). -/
theorem c8_protection_failure_marked_failed (ex : Exchange) (scale : ℚ) (t : Trade)
    (oid : Nat) (tpPriceOpt : Option ℚ) (slp : ℚ)
    (hscale : 0 < scale) (hthr : 1 / 10000 ≤ t.quantity * scale)
    (hopen : pyIn '开' t.action = true) (hnclose : pyIn '平' t.action = false)
    (hgate : riskGateFails t = false)
    (htp : protectPrice t.profit_target = some tpPriceOpt)
    (hsl : protectPrice t.stop_loss = some (some slp))
    (hslp : slp ≠ 0)
    (hentry : ex.createOrder (openEntryReq t scale) = some oid)
    (hslfail : ex.createOrder (slTriggerReq t scale slp) = none) :
    (execute_one_trade ex scale t false).1 = 0
    ∧ (execute_one_trade ex scale t false).2.1 = 1
    ∧ ExCall.createOrder (openEntryReq t scale) ∈ (execute_one_trade ex scale t false).2.2 := by
  have hrun : execute_one_trade ex scale t false = openBranch ex scale t := by
    rw [execute_one_trade_live ex scale t hscale hthr, hnclose, hopen]
    simp
  unfold slTriggerReq at hslfail
  rw [hrun, openBranch_eq ex scale t hgate, hentry, htp, hsl]
  dsimp only
  unfold set_take_profit_stop_loss
  dsimp only
  rw [if_pos hslp, hslfail]
  simp

/-- Witness for claim C8: a concrete opening trade against an exchange that
accepts the market entry but rejects every trigger order is counted failed
with the entry call in the log. -/
theorem c8_protection_failure_marked_failed_witness :
    exEntryOnly.createOrder (openEntryReq tOpenC8 1) = some 1
    ∧ exEntryOnly.createOrder (slTriggerReq tOpenC8 1 100000) = none
    ∧ (execute_one_trade exEntryOnly 1 tOpenC8 false).1 = 0
    ∧ (execute_one_trade exEntryOnly 1 tOpenC8 false).2.1 = 1
    ∧ ExCall.createOrder (openEntryReq tOpenC8 1) ∈ (execute_one_trade exEntryOnly 1 tOpenC8 false).2.2 := by
  have h := c8_protection_failure_marked_failed exEntryOnly 1 tOpenC8 1
    (some 110000) 100000 (by norm_num) (by show (1 : ℚ) / 10000 ≤ 1 * 1; norm_num)
    (by decide) (by decide) (by decide) rfl rfl (by norm_num) rfl rfl
  exact ⟨rfl, rfl, h.1, h.2.1, h.2.2⟩

/-- Claim C9 counterexample: starting from a state where both current.json
and last.json exist, the observable trace of rename_current_to_last contains
an intermediate state in which last.json does not exist: the handoff is
delete-then-rename, not write-new-then-rename-over, so an external reader
can observe a missing previous-snapshot file. -/
theorem c9_handoff_missing_file_cex :
    SnapshotFS.mk (some "new") none ∈
      (rename_current_to_last ⟨some "new", some "old"⟩).1 := by
  unfold rename_current_to_last
  simp

/-- Claim C9 amended: when both files exist, the handoff first deletes
last.json and then renames current.json onto it, so the observable trace is
exactly initial state, a state with last.json missing, and the final state
with the new contents installed; the reader never sees partially written
contents but does see a missing file between the two steps. -/
theorem c9_handoff_delete_then_rename (c l : String) :
    rename_current_to_last ⟨some c, some l⟩ =
      ([⟨some c, some l⟩, ⟨some c, none⟩, ⟨none, some c⟩], true) := rfl

/-- Claim C10: with dry-run mode enabled, executing any trade list reports
success equal to the number of trades and zero failures, with an empty
exchange call log (zero submission calls), for every exchange and scale; in
particular an opening trade with a missing stop loss is counted as a
success, since the dry-run exit precedes the risk gate. -/
theorem c10_dry_run_reports_all_success_no_calls (ex : Exchange) (scale : ℚ)
    (ts : List Trade) :
    execute_trades ex scale ts true = (ts.length, 0, []) :=
  execute_trades_dry ex scale ts
